import Mathlib

/-!
# Verification of the sol-jupiter-drip round-trip cycle engine

Shallow embedding of the repository's core logic:

* `src/types.ts` — `CycleState`, `DripState`, `DripConfig`, `Route`
* `src/state.ts` — `loadState`
* `src/drip.ts` (`MultiRouteDrip`) — `run` (recovery phase + main loop),
  `retryLeg`, `executeBuy`, `executeSell`, `updateStateAfterBuy`,
  `updateStateAfterSell`
* `src/scheduler.ts` — `calculateDelay`
* `src/wallet.ts` — `getTokenBalance`, `getSwapTokenBalance`
* `src/utils.ts` — `KNOWN_DECIMALS`, `getDecimals`, `toUiAmount`
* `mvp-swap.js` (anchor roundtrip mode) — `executeSwapWithRetry`
  (retry with exponential backoff and slippage escalation) and the
  anchor cycle loop

External I/O (RPC calls, Jupiter quote/swap HTTP calls, randomness,
clock reads) is passed in as explicit oracle parameters.  JavaScript
`number` arithmetic on amounts is modelled exactly over `ℚ`; raw
token amounts (JS `BigInt`) are modelled as `ℕ`.
-/

namespace Drip

/-- `CycleState` enum from `src/types.ts`. -/
inductive CycleState
  | INIT
  | BOUGHT
  | SOLD
  deriving DecidableEq, Repr

/-- `Route` from `src/types.ts`. -/
structure Route where
  name : String
  tokenMint : String
  usdcMint : String
  deriving DecidableEq, Repr

/-- `DripState` (the persisted state record) from `src/types.ts`.
Raw amounts (`lastBuyAmount`, a decimal string of a BigInt in the
source) are modelled as `Option ℕ`; epoch-ms timestamps as `ℕ`. -/
structure DripState where
  version : Nat
  completedTrades : Nat
  startTime : Nat
  currentCycleId : String
  cycleState : CycleState
  currentRouteName : Option String
  currentRouteTokenMint : Option String
  lastBuyTx : Option String
  lastBuyTime : Option Nat
  lastBuyAmount : Option Nat
  deriving DecidableEq, Repr

/-- `DripConfig` from `src/types.ts` (fields that feed the engine;
network/credential strings are irrelevant to control flow). -/
structure DripConfig where
  routes : List Route
  totalTrades : Nat
  windowSec : Nat
  usdcMin : ℚ
  usdcMax : ℚ
  dryRun : Bool
  minDelaySec : Nat
  failBackoffSec : Nat
  maxBuyRetries : Nat
  maxSellRetries : Nat
  deriving Repr

/-- `KNOWN_DECIMALS` table from `src/utils.ts`. -/
def KNOWN_DECIMALS : List (String × Nat) :=
  [("So11111111111111111111111111111111111111112", 9),
   ("EPjFWdd5AufqSSqeM2qN1xzybapC8G4wEGGkZwyTDt1v", 6),
   ("JUPyiwrYJFskUPiHa7hkeR8VUtAeFoSYbKedZNsDvCN", 6),
   ("EKpQGSJtjMFqKZ9KQanSqYXRcF8fBopzLHYxdM65zcjm", 9),
   ("DezXAZ8z7PnrnRJjz3wXBoRgixCa6xjnB7YaB1pPB263", 5)]

/-- `getDecimals` from `src/utils.ts`: table lookup, default 6. -/
def getDecimals (mint : String) : Nat :=
  (KNOWN_DECIMALS.lookup mint).getD 6

/-- `toUiAmount` from `src/utils.ts`: `Number(raw) / 10^decimals`,
modelled exactly over `ℚ`. -/
def toUiAmount (raw : Nat) (decimals : Nat) : ℚ :=
  (raw : ℚ) / (10 : ℚ) ^ decimals

/-- The fresh state constructed by `loadState` in `src/state.ts` when no
usable persisted file exists. -/
def freshState (now : Nat) (freshId : String) : DripState :=
  { version := 2
    completedTrades := 0
    startTime := now
    currentCycleId := freshId
    cycleState := CycleState.INIT
    currentRouteName := none
    currentRouteTokenMint := none
    lastBuyTx := none
    lastBuyTime := none
    lastBuyAmount := none }

/-- `loadState` from `src/state.ts`.  `file` is the parsed contents of
`data/state_v2.json` (`none` covers a missing file and a JSON parse
failure).  A version-2 file in `BOUGHT` state is loaded with
`completedTrades` reset to 0 and `startTime` reset to `now`; anything
else yields a fresh state. -/
def loadState (file : Option DripState) (now : Nat) (freshId : String) : DripState :=
  match file with
  | some data =>
      if data.version = 2 then
        if data.cycleState = CycleState.BOUGHT then
          { data with completedTrades := 0, startTime := now }
        else freshState now freshId
      else freshState now freshId
  | none => freshState now freshId

/-- `MultiRouteDrip.updateStateAfterBuy` from `src/drip.ts`. -/
def updateStateAfterBuy (s : DripState) (route : Route) (tx : String)
    (now : Nat) (amountRaw : Nat) : DripState :=
  { s with
    cycleState := CycleState.BOUGHT
    currentRouteName := some route.name
    currentRouteTokenMint := some route.tokenMint
    lastBuyTx := some tx
    lastBuyTime := some now
    lastBuyAmount := some amountRaw
    completedTrades := s.completedTrades + 1 }

/-- `MultiRouteDrip.updateStateAfterSell` from `src/drip.ts`. -/
def updateStateAfterSell (s : DripState) : DripState :=
  { s with
    cycleState := CycleState.SOLD
    completedTrades := s.completedTrades + 1
    currentRouteName := none
    currentRouteTokenMint := none
    lastBuyAmount := none }

/-- The state override performed by `MultiRouteDrip.run` after a
successful recovery sell (`src/drip.ts`, the
`this.state = { ...this.state, cycleState: INIT, completedTrades: 0,
startTime: Date.now(), lastBuyAmount: null }` spread). -/
def resetOverride (s : DripState) (now : Nat) : DripState :=
  { s with
    cycleState := CycleState.INIT
    completedTrades := 0
    startTime := now
    lastBuyAmount := none }

/-- Invariant I1 of the spec: `cycleState == BOUGHT` iff the current
route fields and `lastBuyAmountRaw` are all non-null. -/
def invariantI1 (s : DripState) : Prop :=
  s.cycleState = CycleState.BOUGHT ↔
    (s.currentRouteName ≠ none ∧ s.currentRouteTokenMint ≠ none ∧
      s.lastBuyAmount ≠ none)

instance (s : DripState) : Decidable (invariantI1 s) := by
  unfold invariantI1; infer_instance

/-- Error conditions raised by a single leg attempt (`throw new
Error(...)` sites in `src/drip.ts`). -/
inductive DripErr
  | missingRoute
  | missingLastBuy
  | balanceMismatch
  | zeroBalance
  | suspiciousAmount
  | swapFailed
  deriving DecidableEq, Repr

/-- The error that escapes `MultiRouteDrip.retryLeg`: the aggregated
`Exhausted N retries` error carrying the last underlying failure. -/
inductive RunError
  | exhausted (last : Option DripErr)
  deriving DecidableEq, Repr

/-- The strict sell-amount resolution of `MultiRouteDrip.executeSell`
(`src/drip.ts` lines 201–245): missing `lastBuyAmount` is a safety
error; in a real run, a wallet balance short of the recorded amount by
less than 2% is tolerated (sell the actual balance), a shortfall of 2%
or more is a safety error, an excess balance is ignored (sell exactly
the recorded amount), and a resolved amount of zero is an error.  The
JS shortfall ratio `Number(target - bal) / Number(target)` is modelled
exactly over `ℚ`. -/
def resolveSellAmount (dryRun : Bool) (lastBuyAmount : Option Nat)
    (walletBal : Nat) : Except DripErr Nat :=
  match lastBuyAmount with
  | none => Except.error DripErr.missingLastBuy
  | some target =>
      if dryRun then Except.ok target
      else if walletBal < target then
        if ((target : ℚ) - (walletBal : ℚ)) / (target : ℚ) < 2 / 100 then
          if walletBal = 0 then Except.error DripErr.zeroBalance
          else Except.ok walletBal
        else Except.error DripErr.balanceMismatch
      else if target = 0 then Except.error DripErr.zeroBalance
      else Except.ok target

/-- An observable swap leg: what `executeBuy` / `executeSell` actually
transact. -/
inductive LegEvent
  | sellLeg (isRecovery : Bool) (amount : Nat) (tokenMint : String)
  | buyLeg (tokenMint : String) (amountRaw : Nat)
  deriving DecidableEq, Repr

/-- Whether an event is a recovery sell. -/
def isRecoverySell : LegEvent → Bool
  | LegEvent.sellLeg true _ _ => true
  | _ => false

/-- Whether `pat` occurs at the start of `text`. -/
def startsWithChars : List Char → List Char → Bool
  | [], _ => true
  | _ :: _, [] => false
  | a :: as, b :: bs => if a = b then startsWithChars as bs else false

/-- Whether `pat` occurs anywhere in `text`. -/
def containsChars (pat : List Char) : List Char → Bool
  | [] => startsWithChars pat []
  | c :: rest => startsWithChars pat (c :: rest) || containsChars pat rest

/-- `String.prototype.includes('SOL')` as used by the buy sanity guard
(`route.name.includes('SOL')` in `src/drip.ts`). -/
def includesSOL (s : String) : Bool :=
  containsChars ['S', 'O', 'L'] s.toList

/-- External inputs consumed by one `executeBuy` attempt: the randomly
picked route, the random USDC amount drawn from `[usdcMin, usdcMax]`,
the quote's `outAmount`, whether the quote/swap/confirm round trip
succeeded, the transaction signature and the clock reading. -/
structure BuyInput where
  route : Route
  usdcAmt : ℚ
  quoteOutRaw : Nat
  swapOk : Bool
  sig : String
  now : Nat

/-- External inputs consumed by one `executeSell` attempt. -/
structure SellInput where
  walletBal : Nat
  swapOk : Bool

/-- `MultiRouteDrip.executeBuy` from `src/drip.ts` as a state
transformer.  A failed quote/swap/confirm raises before any state
change.  On success the state is committed via `updateStateAfterBuy`
and *then* the suspicious-amount sanity guard runs: for a route whose
name contains `SOL`, a UI-scaled output above 0.05 bought for less
than 1 USDC raises a safety error (note: after the state commit). -/
def executeBuy (s : DripState) (io : BuyInput) :
    DripState × Except DripErr LegEvent :=
  if io.swapOk then
    let tokenDecimals := getDecimals io.route.tokenMint
    let tokenAmountOutUi := toUiAmount io.quoteOutRaw tokenDecimals
    let s1 := updateStateAfterBuy s io.route io.sig io.now io.quoteOutRaw
    if includesSOL io.route.name ∧ tokenAmountOutUi > 5 / 100 ∧ io.usdcAmt < 1 then
      (s1, Except.error DripErr.suspiciousAmount)
    else
      (s1, Except.ok (LegEvent.buyLeg io.route.tokenMint io.quoteOutRaw))
  else (s, Except.error DripErr.swapFailed)

/-- `MultiRouteDrip.executeSell` from `src/drip.ts` as a state
transformer: check route info, resolve the amount via the strict
sell-amount logic, perform the swap (modelled by `io.swapOk`; in a dry
run only the quote is taken, also covered by `io.swapOk`), then commit
via `updateStateAfterSell`. -/
def executeSell (dryRun : Bool) (isRecovery : Bool) (s : DripState)
    (io : SellInput) : DripState × Except DripErr LegEvent :=
  match s.currentRouteName, s.currentRouteTokenMint with
  | some _, some tokenMint =>
      match resolveSellAmount dryRun s.lastBuyAmount io.walletBal with
      | Except.error e => (s, Except.error e)
      | Except.ok amountToSell =>
          if io.swapOk then
            (updateStateAfterSell s,
              Except.ok (LegEvent.sellLeg isRecovery amountToSell tokenMint))
          else (s, Except.error DripErr.swapFailed)
  | _, _ => (s, Except.error DripErr.missingRoute)

/-- Outcome of `MultiRouteDrip.retryLeg`: either some attempt
succeeded (returning its leg event), or all attempts failed and the
aggregated error carries the last underlying failure. -/
inductive RetryOutcome
  | success (ev : LegEvent)
  | exhausted (last : Option DripErr)
  deriving DecidableEq, Repr

/-- Worker for `retryLeg`: `remaining` attempts left, `i` the current
attempt index, `lastErr` the last failure seen.  Each attempt runs the
(stateful) action; a failed attempt keeps whatever state mutation the
action already performed, exactly as in the source where exceptions
thrown after `updateStateAfterBuy` leave the mutated state in place.
Also returns the number of attempts actually executed. -/
def retryLegAux (action : Nat → DripState → DripState × Except DripErr LegEvent) :
    Nat → Nat → Option DripErr → DripState →
    DripState × RetryOutcome × Nat
  | 0, _, lastErr, s => (s, RetryOutcome.exhausted lastErr, 0)
  | remaining + 1, i, _lastErr, s =>
      match action i s with
      | (s', Except.ok ev) => (s', RetryOutcome.success ev, 1)
      | (s', Except.error e) =>
          let r := retryLegAux action remaining (i + 1) (some e) s'
          (r.1, r.2.1, r.2.2 + 1)

/-- `MultiRouteDrip.retryLeg` from `src/drip.ts`: run the action up to
`maxRetries` times, returning on first success; every caught error is
retried indiscriminately (the loop does not distinguish safety errors
from transient ones). -/
def retryLeg (maxRetries : Nat)
    (action : Nat → DripState → DripState × Except DripErr LegEvent)
    (s : DripState) : DripState × RetryOutcome × Nat :=
  retryLegAux action maxRetries 0 none s

/-- External inputs for one iteration of the main `while` loop:
per-attempt inputs for the leg executed in that iteration (each retry
re-draws route, amount and quote). -/
structure StepInput where
  buyInputs : Nat → BuyInput
  sellInputs : Nat → SellInput

/-- The `while (completedTrades < totalTrades)` loop of
`MultiRouteDrip.run` (`src/drip.ts`): dispatch on `cycleState`
(INIT/SOLD → buy leg, BOUGHT → sell leg), each leg wrapped in
`retryLeg`; an exhausted leg rethrows and aborts the loop.  `fuel`
bounds the iteration count (the scheduler delay and `saveState` have
no effect on control flow and are omitted).  Returns the ordered trace
of successful leg events, the final state and the loop outcome. -/
def mainLoop (cfg : DripConfig) (io : Nat → StepInput) :
    Nat → Nat → DripState → List LegEvent × DripState × Except RunError Unit
  | 0, _, s => ([], s, Except.ok ())
  | fuel + 1, i, s =>
      if s.completedTrades < cfg.totalTrades then
        if s.cycleState = CycleState.INIT ∨ s.cycleState = CycleState.SOLD then
          let s0 := if s.cycleState = CycleState.SOLD then
            { s with cycleState := CycleState.INIT } else s
          match retryLeg cfg.maxBuyRetries
              (fun a st => executeBuy st ((io i).buyInputs a)) s0 with
          | (s', RetryOutcome.success ev, _) =>
              let r := mainLoop cfg io fuel (i + 1) s'
              (ev :: r.1, r.2.1, r.2.2)
          | (s', RetryOutcome.exhausted last, _) =>
              ([], s', Except.error (RunError.exhausted last))
        else if s.cycleState = CycleState.BOUGHT then
          match retryLeg cfg.maxSellRetries
              (fun a st => executeSell cfg.dryRun false st ((io i).sellInputs a)) s with
          | (s', RetryOutcome.success ev, _) =>
              let r := mainLoop cfg io fuel (i + 1) s'
              (ev :: r.1, r.2.1, r.2.2)
          | (s', RetryOutcome.exhausted last, _) =>
              ([], s', Except.error (RunError.exhausted last))
        else mainLoop cfg io fuel (i + 1) s
      else ([], s, Except.ok ())

/-- The recovery phase of `MultiRouteDrip.run`: one sell leg driven
through `retryLeg` with `maxSellRetries`, then
`this.state = stateMgr.loadState()` (re-reading the file just written
by `updateStateAfterSell`) followed by the clean-state override.  On
exhaustion the error propagates (aborting the run). -/
def recoveryPhase (cfg : DripConfig) (s : DripState) (recInput : Nat → SellInput)
    (nowLoad2 nowReset : Nat) (freshId2 : String) :
    Except RunError (DripState × LegEvent) :=
  match retryLeg cfg.maxSellRetries
      (fun a st => executeSell cfg.dryRun true st (recInput a)) s with
  | (s', RetryOutcome.success ev, _) =>
      Except.ok (resetOverride (loadState (some s') nowLoad2 freshId2) nowReset, ev)
  | (_, RetryOutcome.exhausted last, _) =>
      Except.error (RunError.exhausted last)

/-- The body of `MultiRouteDrip.run`'s `try` block: load the persisted
state, run the recovery phase when it is in `BOUGHT` state, then run
the main loop. -/
def runBody (cfg : DripConfig) (file : Option DripState)
    (nowStart nowLoad2 nowReset : Nat) (freshId freshId2 : String)
    (recInput : Nat → SellInput) (io : Nat → StepInput) (fuel : Nat) :
    List LegEvent × DripState × Except RunError Unit :=
  let s := loadState file nowStart freshId
  if s.cycleState = CycleState.BOUGHT then
    match recoveryPhase cfg s recInput nowLoad2 nowReset freshId2 with
    | Except.ok (s2, ev) =>
        let r := mainLoop cfg io fuel 0 s2
        (ev :: r.1, r.2.1, r.2.2)
    | Except.error e => ([], s, Except.error e)
  else mainLoop cfg io fuel 0 s

instance {ε α : Type} [DecidableEq ε] [DecidableEq α] : DecidableEq (Except ε α) := fun x y =>
  match x, y with
  | Except.ok a, Except.ok b =>
      if h : a = b then Decidable.isTrue (by rw [h])
      else Decidable.isFalse (fun hh => h (by injection hh))
  | Except.error e, Except.error f =>
      if h : e = f then Decidable.isTrue (by rw [h])
      else Decidable.isFalse (fun hh => h (by injection hh))
  | Except.ok _, Except.error _ => Decidable.isFalse (fun hh => Except.noConfusion hh)
  | Except.error _, Except.ok _ => Decidable.isFalse (fun hh => Except.noConfusion hh)

/-- What a whole `MultiRouteDrip.run()` call produces. -/
structure RunReport where
  events : List LegEvent
  finalState : DripState
  summaryRan : Bool
  escaped : Except RunError Unit
  deriving DecidableEq, Repr

/-- `MultiRouteDrip.run` from `src/drip.ts` including its
`try`/`catch`/`finally`: the `catch (e) { console.error(...) }` block
only logs — it does not rethrow — and the `finally` block always runs
`printEndSummary`. -/
def runMulti (cfg : DripConfig) (file : Option DripState)
    (nowStart nowLoad2 nowReset : Nat) (freshId freshId2 : String)
    (recInput : Nat → SellInput) (io : Nat → StepInput) (fuel : Nat) : RunReport :=
  let r := runBody cfg file nowStart nowLoad2 nowReset freshId freshId2 recInput io fuel
  { events := r.1
    finalState := r.2.1
    summaryRan := true
    escaped :=
      match r.2.2 with
      | Except.ok _ => Except.ok ()
      | Except.error _ => Except.ok () }

/-- The exit status produced by `main` in `src/index.ts` as a function
of what escapes `bot.run()`: an escaping error hits the
`catch`/`process.exit(1)` path, otherwise the process exits 0. -/
def mainExitCode (escaped : Except RunError Unit) : Nat :=
  match escaped with
  | Except.ok _ => 0
  | Except.error _ => 1

/-! ## Scheduler (`src/scheduler.ts`, `calculateDelay`) -/

/-- `SAFETY_FACTOR = 0.85` from `src/scheduler.ts`. -/
def SAFETY_FACTOR : ℚ := 85 / 100

/-- `ESTIMATED_EXEC_MS = 45000` from `src/scheduler.ts`. -/
def ESTIMATED_EXEC_MS : ℚ := 45000

/-- `deadline - now` where `deadline = startTime + windowSec * 1000`. -/
def remainingTimeMs (cfg : DripConfig) (s : DripState) (now : Nat) : ℤ :=
  ((s.startTime : ℤ) + (cfg.windowSec : ℤ) * 1000) - (now : ℤ)

/-- `config.totalTrades - state.completedTrades`. -/
def remainingTrades (cfg : DripConfig) (s : DripState) : ℤ :=
  (cfg.totalTrades : ℤ) - (s.completedTrades : ℤ)

/-- `Math.ceil(remainingTrades / 2)`. -/
def remainingCycles (cfg : DripConfig) (s : DripState) : ℤ :=
  ⌈(remainingTrades cfg s : ℚ) / 2⌉

/-- `safeTimeWindow = remainingTime - ESTIMATED_EXEC_MS * remainingCycles`. -/
def schedSafeWindow (cfg : DripConfig) (s : DripState) (now : Nat) : ℚ :=
  (remainingTimeMs cfg s now : ℚ) - ESTIMATED_EXEC_MS * (remainingCycles cfg s : ℚ)

/-- `maxDelay = (safeTimeWindow / remainingCycles) * SAFETY_FACTOR`. -/
def schedMaxDelay (cfg : DripConfig) (s : DripState) (now : Nat) : ℚ :=
  schedSafeWindow cfg s now / (remainingCycles cfg s : ℚ) * SAFETY_FACTOR

/-- `minDelay = config.minDelaySec * 1000`. -/
def schedMinDelay (cfg : DripConfig) : ℚ :=
  (cfg.minDelaySec : ℚ) * 1000

/-- `calculateDelay` from `src/scheduler.ts`.  `rand` is the
`Math.random()` draw (in `[0,1)`); the final
`Math.floor(rand * (maxDelay - minDelay) + minDelay)` is `Int.floor`
over exact rationals. -/
def calculateDelay (cfg : DripConfig) (s : DripState) (now : Nat) (rand : ℚ) : ℤ :=
  if s.cycleState = CycleState.BOUGHT then 0
  else if remainingTrades cfg s ≤ 0 then 0
  else if remainingTimeMs cfg s now ≤ 0 then 0
  else if schedSafeWindow cfg s now ≤ 0 then 0
  else if schedMaxDelay cfg s now < schedMinDelay cfg then 0
  else ⌊rand * (schedMaxDelay cfg s now - schedMinDelay cfg) + schedMinDelay cfg⌋

/-! ## Wallet balance helpers (`src/wallet.ts`) -/

/-- The value returned by `getTokenBalance`: a raw amount plus the
mint's decimals. -/
structure TokenBalance where
  amount : Nat
  decimals : Nat
  deriving DecidableEq, Repr

/-- `getTokenBalance` from `src/wallet.ts`.  The RPC interaction
(`getTokenAccountsByOwner` + `getTokenAccountBalance`) is modelled by
`accounts`: `Except.error` is any thrown RPC failure (swallowed by the
`catch`, which returns `{amount: 0, decimals: 6}`), `Except.ok []` is
a successful lookup that found no token account (also `{0, 6}`), and
otherwise the first account's balance is returned. -/
def getTokenBalance (accounts : Except Unit (List TokenBalance)) : TokenBalance :=
  match accounts with
  | Except.error _ => { amount := 0, decimals := 6 }
  | Except.ok [] => { amount := 0, decimals := 6 }
  | Except.ok (a :: _) => a

/-- The wrapped-SOL mint. -/
def WSOL_MINT : String := "So11111111111111111111111111111111111111112"

/-- `getSwapTokenBalance` from `src/wallet.ts`: for native SOL the
usable balance leaves a 0.01-SOL fee buffer (clamped at 0); for an SPL
token it is `getTokenBalance(...).amount`. -/
def getSwapTokenBalance (mint : String) (solBalance : Nat)
    (accounts : Except Unit (List TokenBalance)) : Nat :=
  if mint = WSOL_MINT then
    if solBalance > 10000000 then solBalance - 10000000 else 0
  else (getTokenBalance accounts).amount

/-! ## Anchor-roundtrip retry executor (`mvp-swap.js`,
`executeSwapWithRetry` inside `runAnchorRoundtripMode`) -/

/-- Retry configuration of the anchor mode (`ANCHOR_SWAP_RETRY_MAX`,
`ANCHOR_SWAP_RETRY_BACKOFF_MS`, `ANCHOR_SWAP_RETRY_BACKOFF_MAX_MS`,
`ANCHOR_RETRY_SLIPPAGE_BPS_STEP`, `ANCHOR_RETRY_SLIPPAGE_BPS_MAX`,
`ANCHOR_RETRY_SELL_ONLY`). -/
structure AnchorRetryConfig where
  retryMax : Nat
  backoffMs : Nat
  backoffMaxMs : Nat
  slippageStep : Nat
  slippageMax : Nat
  sellOnly : Bool
  deriving DecidableEq, Repr

/-- `maxAttempts = (isBuy && RETRY_SELL_ONLY) ? 1 : Math.max(1, RETRY_MAX)`. -/
def anchorMaxAttempts (cfg : AnchorRetryConfig) (isBuy : Bool) : Nat :=
  if isBuy && cfg.sellOnly then 1 else Nat.max 1 cfg.retryMax

/-- The slippage adjustment performed after a failed, non-final
attempt: only while strictly below the cap, add the step, clamping at
the cap. -/
def escalateSlippage (cfg : AnchorRetryConfig) (cur : Nat) : Nat :=
  if cur < cfg.slippageMax then
    if cur + cfg.slippageStep > cfg.slippageMax then cfg.slippageMax
    else cur + cfg.slippageStep
  else cur

/-- `backoff = RETRY_BACKOFF_MS * 2^(attempt-1)`, clamped at
`RETRY_BACKOFF_MAX_MS`. -/
def anchorBackoff (cfg : AnchorRetryConfig) (attempt : Nat) : Nat :=
  if cfg.backoffMs * 2 ^ (attempt - 1) > cfg.backoffMaxMs then cfg.backoffMaxMs
  else cfg.backoffMs * 2 ^ (attempt - 1)

/-- One quoted attempt in the anchor retry loop: the 1-based attempt
index and the `slippageBps` its quote was requested with. -/
structure AnchorAttempt where
  attempt : Nat
  slippageBps : Nat
  deriving DecidableEq, Repr

/-- The observable trace of `executeSwapWithRetry`: attempts made (in
order, with the slippage each quoted at), the backoff waits slept
between attempts, and whether the loop ended in success. -/
structure AnchorTrace where
  attempts : List AnchorAttempt
  waits : List Nat
  success : Bool
  deriving DecidableEq, Repr

/-- Worker for `executeSwapWithRetry`: `fuel` attempts remain,
`attempt` is the 1-based index of the next attempt, `cur` the current
slippage.  `succeeds n` tells whether attempt `n`'s
quote/swap/confirm round trip succeeds.  A failed attempt that is not
the last sleeps `anchorBackoff` and escalates the slippage. -/
def anchorRetryAux (cfg : AnchorRetryConfig) (succeeds : Nat → Bool) :
    Nat → Nat → Nat → AnchorTrace
  | 0, _, _ => { attempts := [], waits := [], success := false }
  | fuel + 1, attempt, cur =>
      if succeeds attempt then
        { attempts := [{ attempt := attempt, slippageBps := cur }],
          waits := [], success := true }
      else if fuel = 0 then
        { attempts := [{ attempt := attempt, slippageBps := cur }],
          waits := [], success := false }
      else
        let rest := anchorRetryAux cfg succeeds fuel (attempt + 1)
          (escalateSlippage cfg cur)
        { attempts := { attempt := attempt, slippageBps := cur } :: rest.attempts,
          waits := anchorBackoff cfg attempt :: rest.waits,
          success := rest.success }

/-- `executeSwapWithRetry` from `mvp-swap.js`: up to
`anchorMaxAttempts` attempts starting at the caller-supplied base
slippage. -/
def executeSwapWithRetry (cfg : AnchorRetryConfig) (isBuy : Bool)
    (baseSlippageBps : Nat) (succeeds : Nat → Bool) : AnchorTrace :=
  anchorRetryAux cfg succeeds (anchorMaxAttempts cfg isBuy) 1 baseSlippageBps

/-- Per-cycle statistics kept by the anchor loop. -/
structure AnchorStats where
  success : Nat
  failed : Nat
  totalCycles : Nat
  deriving DecidableEq, Repr

/-- The attempt-outcome oracles of one anchor cycle. -/
structure AnchorCycleInput where
  buySucceeds : Nat → Bool
  sellSucceeds : Nat → Bool

/-- One iteration of the anchor cycle loop in `mvp-swap.js`
(`runAnchorRoundtripMode`): `stats.total_cycles++`, then the buy leg
(base slippage 50); a buy that exhausts its retries is caught —
`stats.failed++`, backoff sleep, `continue` — otherwise the sell leg
runs (base slippage 50) and is likewise caught on failure.  No path
rethrows. -/
def anchorCycle (cfg : AnchorRetryConfig) (io : AnchorCycleInput)
    (st : AnchorStats) : AnchorStats :=
  let st := { st with totalCycles := st.totalCycles + 1 }
  let buyTr := executeSwapWithRetry cfg true 50 io.buySucceeds
  if buyTr.success = false then { st with failed := st.failed + 1 }
  else
    let sellTr := executeSwapWithRetry cfg false 50 io.sellSucceeds
    if sellTr.success then { st with success := st.success + 1 }
    else { st with failed := st.failed + 1 }

/-- The `for (let i = 1; i <= TOTAL_CYCLES; i++)` anchor loop: every
cycle runs (no abort path), threading the stats. -/
def runAnchorCycles (cfg : AnchorRetryConfig) (io : Nat → AnchorCycleInput)
    (total : Nat) : AnchorStats :=
  (List.range total).foldl (fun st i => anchorCycle cfg (io i) st)
    { success := 0, failed := 0, totalCycles := 0 }

/-! ## Lemmas about the sell-amount resolution -/

lemma resolveSellAmount_ge (t b : Nat) (ht : 0 < t) (hb : t ≤ b) :
    resolveSellAmount false (some t) b = Except.ok t := by
  simp only [resolveSellAmount]
  rw [if_neg (by simp), if_neg (by omega : ¬ b < t), if_neg (by omega : ¬ t = 0)]

lemma resolveSellAmount_small_shortfall (t b : Nat) (hb : b < t)
    (hdiff : ((t : ℚ) - (b : ℚ)) / (t : ℚ) < 2 / 100) :
    resolveSellAmount false (some t) b = Except.ok b := by
  have ht : 0 < t := by omega
  have hbne : b ≠ 0 := by
    intro h0
    subst h0
    have htq : (0 : ℚ) < (t : ℚ) := by exact_mod_cast ht
    rw [Nat.cast_zero, sub_zero, div_self (ne_of_gt htq)] at hdiff
    norm_num at hdiff
  simp only [resolveSellAmount]
  rw [if_neg (by simp), if_pos hb, if_pos hdiff, if_neg hbne]

lemma resolveSellAmount_big_shortfall (t b : Nat) (hb : b < t)
    (hdiff : ¬ ((t : ℚ) - (b : ℚ)) / (t : ℚ) < 2 / 100) :
    resolveSellAmount false (some t) b = Except.error DripErr.balanceMismatch := by
  simp only [resolveSellAmount]
  rw [if_neg (by simp), if_pos hb, if_neg hdiff]

lemma executeSell_resolve (dryRun isRec : Bool) (s : DripState) (io : SellInput)
    (rn mint : String) (hrn : s.currentRouteName = some rn)
    (hmint : s.currentRouteTokenMint = some mint) (hswap : io.swapOk = true) :
    executeSell dryRun isRec s io =
      match resolveSellAmount dryRun s.lastBuyAmount io.walletBal with
      | Except.error e => (s, Except.error e)
      | Except.ok amt =>
          (updateStateAfterSell s, Except.ok (LegEvent.sellLeg isRec amt mint)) := by
  cases h : resolveSellAmount dryRun s.lastBuyAmount io.walletBal <;>
    simp [executeSell, hrn, hmint, h, hswap]

/-- **C1**: for a non-recovery sell leg in a real (non-dry-run) run with
a recorded `lastBuyAmountRaw = t > 0`, the amount transacted is `t`
when the wallet balance is at least `t`; the actual wallet balance when
the shortfall is strictly below 2%; a fatal safety error when the
shortfall is 2% or more; and the full wallet balance is never
transacted when it exceeds `t`. -/
theorem claim_C1_sell_amount_binding (s : DripState) (io : SellInput)
    (rn mint : String) (t : Nat)
    (hrn : s.currentRouteName = some rn)
    (hmint : s.currentRouteTokenMint = some mint)
    (hlast : s.lastBuyAmount = some t) (ht : 0 < t)
    (hswap : io.swapOk = true) :
    (t ≤ io.walletBal →
      executeSell false false s io =
        (updateStateAfterSell s, Except.ok (LegEvent.sellLeg false t mint))) ∧
    (io.walletBal < t → ((t : ℚ) - (io.walletBal : ℚ)) / (t : ℚ) < 2 / 100 →
      executeSell false false s io =
        (updateStateAfterSell s,
          Except.ok (LegEvent.sellLeg false io.walletBal mint))) ∧
    (io.walletBal < t → 2 / 100 ≤ ((t : ℚ) - (io.walletBal : ℚ)) / (t : ℚ) →
      executeSell false false s io = (s, Except.error DripErr.balanceMismatch)) ∧
    (t < io.walletBal →
      (executeSell false false s io).2 ≠
        Except.ok (LegEvent.sellLeg false io.walletBal mint)) := by
  have hred := executeSell_resolve false false s io rn mint hrn hmint hswap
  rw [hlast] at hred
  refine ⟨?_, ?_, ?_, ?_⟩
  · intro hb
    rw [hred, resolveSellAmount_ge t io.walletBal ht hb]
  · intro hb hdiff
    rw [hred, resolveSellAmount_small_shortfall t io.walletBal hb hdiff]
  · intro hb hdiff
    rw [hred, resolveSellAmount_big_shortfall t io.walletBal hb (not_lt.mpr hdiff)]
  · intro hb
    rw [hred, resolveSellAmount_ge t io.walletBal ht (le_of_lt hb)]
    intro hcontra
    have : t = io.walletBal := by
      have := Except.ok.inj hcontra
      injection this with h1 h2 h3
    omega

/-- A concrete `BOUGHT` state used to instantiate the sell-leg claims. -/
def sBoughtC1 : DripState :=
  { version := 2
    completedTrades := 3
    startTime := 7
    currentCycleId := "cycle"
    cycleState := CycleState.BOUGHT
    currentRouteName := some "SOL-USDC"
    currentRouteTokenMint := some "X"
    lastBuyTx := some "tx"
    lastBuyTime := some 6
    lastBuyAmount := some 1000 }

theorem claim_C1_sell_amount_binding_witness :
    (0 < 1000 ∧ (1000 : Nat) ≤ 1000) ∧
    executeSell false false sBoughtC1 ⟨1000, true⟩ =
      (updateStateAfterSell sBoughtC1, Except.ok (LegEvent.sellLeg false 1000 "X")) :=
  ⟨⟨by decide, by decide⟩,
    (claim_C1_sell_amount_binding sBoughtC1 ⟨1000, true⟩ "SOL-USDC" "X" 1000
      rfl rfl rfl (by decide) rfl).1 (by decide)⟩

/-- **C3**: invariant I1 (`cycleState = BOUGHT ⇔` route fields and
`lastBuyAmount` non-null) holds after every state write: after
`updateStateAfterBuy` and `updateStateAfterSell` unconditionally, after
the post-recovery reset, and after `loadState` (from a stored state
satisfying I1, and from no stored state). -/
theorem claim_C3_invariant_I1 (s : DripState) (route : Route)
    (tx freshId : String) (buyNow now : Nat) (amountRaw : Nat)
    (hs : invariantI1 s) :
    invariantI1 (updateStateAfterBuy s route tx buyNow amountRaw) ∧
    invariantI1 (updateStateAfterSell s) ∧
    invariantI1 (resetOverride s now) ∧
    invariantI1 (loadState (some s) now freshId) ∧
    invariantI1 (loadState none now freshId) := by
  refine ⟨?_, ?_, ?_, ?_, ?_⟩
  · simp [invariantI1, updateStateAfterBuy]
  · simp [invariantI1, updateStateAfterSell]
  · simp [invariantI1, resetOverride]
  · simp only [loadState]
    split_ifs with h1 h2
    · unfold invariantI1 at hs ⊢
      simpa using hs
    · simp [invariantI1, freshState]
    · simp [invariantI1, freshState]
  · simp [invariantI1, freshState, loadState]

theorem claim_C3_invariant_I1_witness :
    invariantI1 (freshState 0 "id") ∧
    invariantI1 (updateStateAfterBuy (freshState 0 "id") ⟨"P", "M", "U"⟩ "tx" 1 2) ∧
    invariantI1 (loadState (some (freshState 0 "id")) 5 "id2") :=
  ⟨by decide,
    (claim_C3_invariant_I1 (freshState 0 "id") ⟨"P", "M", "U"⟩ "tx" "id2" 1 5 2
      (by decide)).1,
    (claim_C3_invariant_I1 (freshState 0 "id") ⟨"P", "M", "U"⟩ "tx" "id2" 1 5 2
      (by decide)).2.2.2.1⟩

/-! ## Behaviour of `retryLeg` -/

lemma retryLegAux_fixed_error
    (action : Nat → DripState → DripState × Except DripErr LegEvent)
    (s : DripState) (e : DripErr)
    (hact : ∀ a, action a s = (s, Except.error e)) :
    ∀ (n i : Nat), retryLegAux action n i (some e) s =
      (s, RetryOutcome.exhausted (some e), n) := by
  intro n
  induction n with
  | zero => intro i; rfl
  | succ m ih =>
      intro i
      simp only [retryLegAux]
      rw [hact i]
      simp only [ih (i + 1)]

lemma retryLeg_fixed_error
    (action : Nat → DripState → DripState × Except DripErr LegEvent)
    (s : DripState) (e : DripErr)
    (hact : ∀ a, action a s = (s, Except.error e))
    (n : Nat) (hn : 0 < n) :
    retryLeg n action s = (s, RetryOutcome.exhausted (some e), n) := by
  cases n with
  | zero => omega
  | succ m =>
      unfold retryLeg
      simp only [retryLegAux]
      rw [hact 0]
      simp only [retryLegAux_fixed_error action s e hact m 1]

lemma retryLeg_first_success
    (action : Nat → DripState → DripState × Except DripErr LegEvent)
    (s s' : DripState) (ev : LegEvent)
    (hact : action 0 s = (s', Except.ok ev)) (n : Nat) (hn : 0 < n) :
    retryLeg n action s = (s', RetryOutcome.success ev, 1) := by
  cases n with
  | zero => omega
  | succ m =>
      unfold retryLeg
      simp only [retryLegAux]
      rw [hact]

/-- **C10**: when the RPC token-account lookup fails or finds no token
account, `getTokenBalance` reports amount 0 with decimals defaulted to
6 instead of raising, `getSwapTokenBalance` therefore reports 0, and a
real-run sell-leg balance validation performed against that reading
observes a 100% shortfall and produces the fatal safety
balance-mismatch error (not a transient `swapFailed`); the wrapping
`retryLeg` then exhausts all its attempts on that same safety error. -/
theorem claim_C10_balance_outage (accounts : Except Unit (List TokenBalance))
    (mint rn : String) (solBal : Nat) (s : DripState) (t : Nat)
    (swapOk : Bool) (n : Nat)
    (hacc : accounts = Except.error () ∨ accounts = Except.ok [])
    (hmint : ¬ mint = WSOL_MINT)
    (hrn : s.currentRouteName = some rn)
    (hsmint : s.currentRouteTokenMint = some mint)
    (hlast : s.lastBuyAmount = some t) (ht : 0 < t) (hn : 0 < n) :
    getTokenBalance accounts = { amount := 0, decimals := 6 } ∧
    getSwapTokenBalance mint solBal accounts = 0 ∧
    ((t : ℚ) - (getSwapTokenBalance mint solBal accounts : ℚ)) / (t : ℚ) = 1 ∧
    executeSell false false s ⟨getSwapTokenBalance mint solBal accounts, swapOk⟩ =
      (s, Except.error DripErr.balanceMismatch) ∧
    retryLeg n
      (fun _ st => executeSell false false st
        ⟨getSwapTokenBalance mint solBal accounts, swapOk⟩) s =
      (s, RetryOutcome.exhausted (some DripErr.balanceMismatch), n) := by
  have hbal : getTokenBalance accounts = { amount := 0, decimals := 6 } := by
    rcases hacc with h | h <;> rw [h] <;> rfl
  have hswb : getSwapTokenBalance mint solBal accounts = 0 := by
    unfold getSwapTokenBalance
    rw [if_neg hmint, hbal]
  have htq : (0 : ℚ) < (t : ℚ) := by exact_mod_cast ht
  have hsell : ∀ s' : DripState, s'.currentRouteName = some rn →
      s'.currentRouteTokenMint = some mint → s'.lastBuyAmount = some t →
      executeSell false false s' ⟨getSwapTokenBalance mint solBal accounts, swapOk⟩ =
        (s', Except.error DripErr.balanceMismatch) := by
    intro s' h1 h2 h3
    unfold executeSell
    rw [h1, h2, h3, hswb]
    have hres : resolveSellAmount false (some t) 0 =
        Except.error DripErr.balanceMismatch := by
      apply resolveSellAmount_big_shortfall t 0 ht
      rw [Nat.cast_zero, sub_zero, div_self (ne_of_gt htq)]
      norm_num
    rw [hres]
  refine ⟨hbal, hswb, ?_, hsell s hrn hsmint hlast, ?_⟩
  · rw [hswb, Nat.cast_zero, sub_zero, div_self (ne_of_gt htq)]
  · exact retryLeg_fixed_error _ s DripErr.balanceMismatch
      (fun _ => hsell s hrn hsmint hlast) n hn

theorem claim_C10_balance_outage_witness :
    ((Except.error () : Except Unit (List TokenBalance)) = Except.error () ∨
        (Except.error () : Except Unit (List TokenBalance)) = Except.ok []) ∧
    ¬ ("X" : String) = WSOL_MINT ∧ (0 : Nat) < 1000 ∧ (0 : Nat) < 5 ∧
    getSwapTokenBalance "X" 77 (Except.error ()) = 0 ∧
    executeSell false false sBoughtC1 ⟨getSwapTokenBalance "X" 77 (Except.error ()), true⟩ =
      (sBoughtC1, Except.error DripErr.balanceMismatch) :=
  ⟨Or.inl rfl, by decide, by decide, by decide,
    (claim_C10_balance_outage (Except.error ()) "X" "SOL-USDC" 77 sBoughtC1 1000 true 5
      (Or.inl rfl) (by decide) rfl rfl rfl (by decide) (by decide)).2.1,
    (claim_C10_balance_outage (Except.error ()) "X" "SOL-USDC" 77 sBoughtC1 1000 true 5
      (Or.inl rfl) (by decide) rfl rfl rfl (by decide) (by decide)).2.2.2.1⟩

/-! ## Scheduler bounds -/

lemma remainingCycles_pos (cfg : DripConfig) (s : DripState)
    (h : 0 < remainingTrades cfg s) : (0 : ℚ) < (remainingCycles cfg s : ℚ) := by
  have h2 : (0 : ℚ) < (remainingTrades cfg s : ℚ) / 2 := by
    have : (0 : ℚ) < (remainingTrades cfg s : ℚ) := by exact_mod_cast h
    linarith
  have h3 : (remainingTrades cfg s : ℚ) / 2 ≤ (remainingCycles cfg s : ℚ) :=
    Int.le_ceil _
  linarith

/-- **C4**: the scheduler's delay is always non-negative; it is exactly
0 when `cycleState = BOUGHT`, when no legs remain, when the time window
is exhausted, and when the computed `maxDelay` is below the configured
minimum delay; otherwise it lies in `[minDelay, maxDelay]`. -/
theorem claim_C4_scheduler_bounds (cfg : DripConfig) (s : DripState)
    (now : Nat) (rand : ℚ) (h0 : 0 ≤ rand) (h1 : rand < 1) :
    0 ≤ calculateDelay cfg s now rand ∧
    (s.cycleState = CycleState.BOUGHT → calculateDelay cfg s now rand = 0) ∧
    (remainingTrades cfg s ≤ 0 → calculateDelay cfg s now rand = 0) ∧
    (remainingTimeMs cfg s now ≤ 0 → calculateDelay cfg s now rand = 0) ∧
    (schedMaxDelay cfg s now < schedMinDelay cfg →
      calculateDelay cfg s now rand = 0) ∧
    (s.cycleState ≠ CycleState.BOUGHT → 0 < remainingTrades cfg s →
      0 < remainingTimeMs cfg s now →
      schedMinDelay cfg ≤ schedMaxDelay cfg s now →
      schedMinDelay cfg ≤ (calculateDelay cfg s now rand : ℚ) ∧
        (calculateDelay cfg s now rand : ℚ) ≤ schedMaxDelay cfg s now) := by
  have hminNN : 0 ≤ schedMinDelay cfg := by
    unfold schedMinDelay; positivity
  unfold calculateDelay
  split_ifs with hB hT hR hS hM
  · exact ⟨le_refl 0, fun _ => rfl, fun _ => rfl, fun _ => rfl, fun _ => rfl,
      fun hB' _ _ _ => absurd hB hB'⟩
  · exact ⟨le_refl 0, fun _ => rfl, fun _ => rfl, fun _ => rfl, fun _ => rfl,
      fun _ hT' _ _ => absurd hT (not_le.mpr hT')⟩
  · exact ⟨le_refl 0, fun _ => rfl, fun _ => rfl, fun _ => rfl, fun _ => rfl,
      fun _ _ hR' _ => absurd hR (not_le.mpr hR')⟩
  · refine ⟨le_refl 0, fun _ => rfl, fun _ => rfl, fun _ => rfl, fun _ => rfl,
      fun _ hT' _ hMle => ?_⟩
    have hcyc : (0 : ℚ) < (remainingCycles cfg s : ℚ) := remainingCycles_pos cfg s hT'
    have hmax0 : schedMaxDelay cfg s now ≤ 0 := by
      unfold schedMaxDelay SAFETY_FACTOR
      have hdiv : schedSafeWindow cfg s now / (remainingCycles cfg s : ℚ) ≤ 0 :=
        div_nonpos_iff.mpr (Or.inr ⟨hS, le_of_lt hcyc⟩)
      nlinarith
    constructor
    · push_cast; linarith
    · push_cast; linarith
  · exact ⟨le_refl 0, fun _ => rfl, fun _ => rfl, fun _ => rfl, fun _ => rfl,
      fun _ _ _ hMle => absurd hM (not_lt.mpr hMle)⟩
  · have hminmax : schedMinDelay cfg ≤ schedMaxDelay cfg s now := not_lt.mp hM
    have hxlo : schedMinDelay cfg ≤
        rand * (schedMaxDelay cfg s now - schedMinDelay cfg) + schedMinDelay cfg := by
      nlinarith
    have hxhi : rand * (schedMaxDelay cfg s now - schedMinDelay cfg) +
        schedMinDelay cfg ≤ schedMaxDelay cfg s now := by
      nlinarith
    have hmin_int : schedMinDelay cfg = ((cfg.minDelaySec * 1000 : ℤ) : ℚ) := by
      unfold schedMinDelay; push_cast; ring
    have hfloor_lo : (cfg.minDelaySec * 1000 : ℤ) ≤
        ⌊rand * (schedMaxDelay cfg s now - schedMinDelay cfg) + schedMinDelay cfg⌋ :=
      Int.le_floor.mpr (by rw [← hmin_int]; exact hxlo)
    refine ⟨?_, fun hB' => absurd hB' hB, fun hT' => absurd hT' hT,
      fun hR' => absurd hR' hR, fun hM' => absurd hM' hM,
      fun _ _ _ _ => ⟨?_, ?_⟩⟩
    · have : (0 : ℤ) ≤ (cfg.minDelaySec * 1000 : ℤ) := by positivity
      omega
    · calc schedMinDelay cfg = ((cfg.minDelaySec * 1000 : ℤ) : ℚ) := hmin_int
        _ ≤ _ := by exact_mod_cast hfloor_lo
    · calc ((⌊rand * (schedMaxDelay cfg s now - schedMinDelay cfg) +
            schedMinDelay cfg⌋ : ℤ) : ℚ)
          ≤ rand * (schedMaxDelay cfg s now - schedMinDelay cfg) + schedMinDelay cfg :=
            Int.floor_le _
        _ ≤ schedMaxDelay cfg s now := hxhi

/-- A concrete configuration for the scheduler witness. -/
def cfgC4 : DripConfig :=
  { routes := []
    totalTrades := 4
    windowSec := 3600
    usdcMin := 1
    usdcMax := 2
    dryRun := false
    minDelaySec := 5
    failBackoffSec := 30
    maxBuyRetries := 3
    maxSellRetries := 5 }

theorem claim_C4_scheduler_bounds_witness :
    ((0 : ℚ) ≤ 1 / 2 ∧ (1 / 2 : ℚ) < 1) ∧
    0 ≤ calculateDelay cfgC4 (freshState 0 "w") 0 (1 / 2) :=
  ⟨⟨by norm_num, by norm_num⟩,
    (claim_C4_scheduler_bounds cfgC4 (freshState 0 "w") 0 (1 / 2)
      (by norm_num) (by norm_num)).1⟩

/-! ## Anchor retry: slippage escalation and backoff -/

lemma escalateSlippage_le (cfg : AnchorRetryConfig) (cur : Nat)
    (h : cur ≤ cfg.slippageMax) : escalateSlippage cfg cur ≤ cfg.slippageMax := by
  unfold escalateSlippage
  split_ifs <;> omega

lemma escalateSlippage_min (cfg : AnchorRetryConfig) (cur j : Nat)
    (h : cur ≤ cfg.slippageMax) :
    min (escalateSlippage cfg cur + j * cfg.slippageStep) cfg.slippageMax =
      min (cur + (j + 1) * cfg.slippageStep) cfg.slippageMax := by
  have hm : (j + 1) * cfg.slippageStep = j * cfg.slippageStep + cfg.slippageStep := by
    ring
  rw [hm]
  unfold escalateSlippage
  generalize j * cfg.slippageStep = js
  split_ifs <;> omega

lemma anchorRetryAux_slippage (cfg : AnchorRetryConfig) (succeeds : Nat → Bool) :
    ∀ (fuel a cur : Nat), cur ≤ cfg.slippageMax →
      ∀ i, i < (anchorRetryAux cfg succeeds fuel a cur).attempts.length →
        ((anchorRetryAux cfg succeeds fuel a cur).attempts.getD i ⟨0, 0⟩).slippageBps =
          min (cur + i * cfg.slippageStep) cfg.slippageMax := by
  intro fuel
  induction fuel with
  | zero =>
      intro a cur hcur i hi
      simp [anchorRetryAux] at hi
  | succ m ih =>
      intro a cur hcur i hi
      simp only [anchorRetryAux] at hi ⊢
      by_cases hs : succeeds a = true
      · rw [if_pos hs] at hi ⊢
        have hi0 : i = 0 := by simpa using hi
        subst hi0
        simp only [List.getD_cons_zero]
        omega
      · rw [if_neg hs] at hi ⊢
        by_cases hm0 : m = 0
        · rw [if_pos hm0] at hi ⊢
          have hi0 : i = 0 := by simpa using hi
          subst hi0
          simp only [List.getD_cons_zero]
          omega
        · rw [if_neg hm0] at hi ⊢
          cases i with
          | zero =>
              simp only [List.getD_cons_zero]
              omega
          | succ j =>
              simp only [List.getD_cons_succ]
              have hj : j < (anchorRetryAux cfg succeeds m (a + 1)
                  (escalateSlippage cfg cur)).attempts.length := by
                simpa using hi
              rw [ih (a + 1) (escalateSlippage cfg cur)
                (escalateSlippage_le cfg cur hcur) j hj]
              exact escalateSlippage_min cfg cur j hcur

/-- **C5**: in `executeSwapWithRetry`, the attempt `i` (0-indexed) is
quoted at slippage `min(base + i*step, slippageMax)` — the first
attempt at the caller-supplied base, each retry raising it by
`slippageStepBps` capped at `slippageMaxBps` — and concretely a sell
leg whose first three attempts fail at base 50 bps with step 25 bps
(max 200, maxAttempts 5) quotes its four attempts at 50, 75, 100,
125 bps and succeeds on the fourth. -/
theorem claim_C5_slippage_escalation (cfg : AnchorRetryConfig) (isBuy : Bool)
    (base : Nat) (succeeds : Nat → Bool) (hbase : base ≤ cfg.slippageMax) :
    (∀ i, i < (executeSwapWithRetry cfg isBuy base succeeds).attempts.length →
      ((executeSwapWithRetry cfg isBuy base succeeds).attempts.getD i
          ⟨0, 0⟩).slippageBps =
        min (base + i * cfg.slippageStep) cfg.slippageMax) ∧
    executeSwapWithRetry ⟨5, 500, 4000, 25, 200, true⟩ false 50
        (fun n => decide (n = 4)) =
      { attempts := [⟨1, 50⟩, ⟨2, 75⟩, ⟨3, 100⟩, ⟨4, 125⟩],
        waits := [500, 1000, 2000], success := true } := by
  constructor
  · intro i hi
    exact anchorRetryAux_slippage cfg succeeds (anchorMaxAttempts cfg isBuy)
      1 base hbase i hi
  · decide

theorem claim_C5_slippage_escalation_witness :
    ((50 : Nat) ≤ 200 ∧
      1 < (executeSwapWithRetry ⟨5, 500, 4000, 25, 200, true⟩ false 50
        (fun n => decide (n = 4))).attempts.length) ∧
    ((executeSwapWithRetry ⟨5, 500, 4000, 25, 200, true⟩ false 50
        (fun n => decide (n = 4))).attempts.getD 1 ⟨0, 0⟩).slippageBps =
      min (50 + 1 * 25) 200 :=
  ⟨⟨by decide, by decide⟩,
    (claim_C5_slippage_escalation ⟨5, 500, 4000, 25, 200, true⟩ false 50
      (fun n => decide (n = 4)) (by decide)).1 1 (by decide)⟩

lemma anchorRetryAux_waits (cfg : AnchorRetryConfig) (succeeds : Nat → Bool) :
    ∀ (fuel a cur i : Nat),
      i < (anchorRetryAux cfg succeeds fuel a cur).waits.length →
      (anchorRetryAux cfg succeeds fuel a cur).waits.getD i 0 =
        anchorBackoff cfg (a + i) := by
  intro fuel
  induction fuel with
  | zero =>
      intro a cur i hi
      simp [anchorRetryAux] at hi
  | succ m ih =>
      intro a cur i hi
      simp only [anchorRetryAux] at hi ⊢
      by_cases hs : succeeds a = true
      · rw [if_pos hs] at hi
        simp at hi
      · rw [if_neg hs] at hi ⊢
        by_cases hm0 : m = 0
        · rw [if_pos hm0] at hi
          simp at hi
        · rw [if_neg hm0] at hi ⊢
          cases i with
          | zero => simp
          | succ j =>
              simp only [List.getD_cons_succ]
              have hj : j < (anchorRetryAux cfg succeeds m (a + 1)
                  (escalateSlippage cfg cur)).waits.length := by
                simpa using hi
              rw [ih (a + 1) (escalateSlippage cfg cur) j hj]
              congr 1
              omega

/-- **C6**: every backoff wait slept after a failed, non-final attempt
of `executeSwapWithRetry` is exponential in the attempt number: the
wait following attempt `i+1` (the `i`-th wait, 0-indexed) equals
`min(initialBackoffMs * 2^((i+1)-1), maxBackoffMs)`. -/
theorem claim_C6_exponential_backoff (cfg : AnchorRetryConfig) (isBuy : Bool)
    (base : Nat) (succeeds : Nat → Bool) (i : Nat)
    (hi : i < (executeSwapWithRetry cfg isBuy base succeeds).waits.length) :
    (executeSwapWithRetry cfg isBuy base succeeds).waits.getD i 0 =
      min (cfg.backoffMs * 2 ^ ((i + 1) - 1)) cfg.backoffMaxMs := by
  have h := anchorRetryAux_waits cfg succeeds (anchorMaxAttempts cfg isBuy)
    1 base i hi
  rw [show (1 : Nat) + i = i + 1 from by omega] at h
  unfold executeSwapWithRetry
  rw [h]
  unfold anchorBackoff
  simp only [Nat.add_sub_cancel]
  generalize cfg.backoffMs * 2 ^ i = x
  split_ifs <;> omega

theorem claim_C6_exponential_backoff_witness :
    (0 < (executeSwapWithRetry ⟨3, 500, 4000, 25, 200, false⟩ false 50
      (fun _ => false)).waits.length) ∧
    (executeSwapWithRetry ⟨3, 500, 4000, 25, 200, false⟩ false 50
        (fun _ => false)).waits.getD 1 0 =
      min (500 * 2 ^ ((1 + 1) - 1)) 4000 :=
  ⟨by decide,
    claim_C6_exponential_backoff ⟨3, 500, 4000, 25, 200, false⟩ false 50
      (fun _ => false) 1 (by decide)⟩

/-! ## Anchor loop: sell-only retry, no abort on buy failure -/

lemma anchorCycle_totalCycles (cfg : AnchorRetryConfig) (io : AnchorCycleInput)
    (st : AnchorStats) :
    (anchorCycle cfg io st).totalCycles = st.totalCycles + 1 := by
  unfold anchorCycle
  dsimp only
  split_ifs <;> rfl

lemma runAnchorCycles_foldl (cfg : AnchorRetryConfig)
    (io : Nat → AnchorCycleInput) :
    ∀ (l : List Nat) (st : AnchorStats),
      (l.foldl (fun st i => anchorCycle cfg (io i) st) st).totalCycles =
        st.totalCycles + l.length := by
  intro l
  induction l with
  | nil => intro st; simp
  | cons x xs ih =>
      intro st
      rw [List.foldl_cons, ih, anchorCycle_totalCycles]
      simp
      omega

/-- **C7**: with sell-only retry enabled, a BUY leg gets exactly one
attempt (the trace always has length 1, so a failed buy is never
re-attempted) while a SELL leg gets up to the configured maximum
attempts; and a cycle whose buy leg fails is marked failed and the
anchor loop still processes every scheduled cycle — the run does not
abort. -/
theorem claim_C7_sell_only_retry (cfg : AnchorRetryConfig)
    (hso : cfg.sellOnly = true) (hrm : 1 ≤ cfg.retryMax)
    (base : Nat) (succeeds : Nat → Bool) (io : Nat → AnchorCycleInput) (n : Nat)
    (ioK : AnchorCycleInput) (st : AnchorStats)
    (hfail : (executeSwapWithRetry cfg true 50 ioK.buySucceeds).success = false) :
    anchorMaxAttempts cfg true = 1 ∧
    anchorMaxAttempts cfg false = cfg.retryMax ∧
    (executeSwapWithRetry cfg true base succeeds).attempts.length = 1 ∧
    (runAnchorCycles cfg io n).totalCycles = n ∧
    (anchorCycle cfg ioK st).failed = st.failed + 1 ∧
    (anchorCycle cfg ioK st).totalCycles = st.totalCycles + 1 := by
  have hmax1 : anchorMaxAttempts cfg true = 1 := by
    simp [anchorMaxAttempts, hso]
  refine ⟨hmax1, ?_, ?_, ?_, ?_, anchorCycle_totalCycles cfg ioK st⟩
  · simp [anchorMaxAttempts, Nat.max_eq_right hrm]
  · unfold executeSwapWithRetry
    rw [hmax1]
    simp only [anchorRetryAux]
    split_ifs <;> rfl
  · unfold runAnchorCycles
    rw [runAnchorCycles_foldl]
    simp
  · simp [anchorCycle, hfail]

theorem claim_C7_sell_only_retry_witness :
    ((⟨3, 500, 4000, 25, 200, true⟩ : AnchorRetryConfig).sellOnly = true ∧
      1 ≤ (⟨3, 500, 4000, 25, 200, true⟩ : AnchorRetryConfig).retryMax ∧
      (executeSwapWithRetry ⟨3, 500, 4000, 25, 200, true⟩ true 50
        (fun _ => false)).success = false) ∧
    anchorMaxAttempts ⟨3, 500, 4000, 25, 200, true⟩ true = 1 ∧
    (runAnchorCycles ⟨3, 500, 4000, 25, 200, true⟩
      (fun _ => ⟨fun _ => false, fun _ => false⟩) 4).totalCycles = 4 :=
  ⟨⟨rfl, by decide, by decide⟩,
    (claim_C7_sell_only_retry ⟨3, 500, 4000, 25, 200, true⟩ rfl (by decide) 50
      (fun _ => false) (fun _ => ⟨fun _ => false, fun _ => false⟩) 4
      ⟨fun _ => false, fun _ => false⟩ ⟨0, 0, 0⟩ (by decide)).1,
    (claim_C7_sell_only_retry ⟨3, 500, 4000, 25, 200, true⟩ rfl (by decide) 50
      (fun _ => false) (fun _ => ⟨fun _ => false, fun _ => false⟩) 4
      ⟨fun _ => false, fun _ => false⟩ ⟨0, 0, 0⟩ (by decide)).2.2.2.1⟩

/-! ## Safety violations are retried by `retryLeg` (claim C8) -/

/-- A buy whose inputs trip the suspicious-amount guard: a `SOL` route,
0.5 USDC spent, quote output 60000000 raw (0.06 SOL at 9 decimals,
`> 0.05` while `usdcAmt < 1`). -/
def buySuspiciousInput : BuyInput :=
  { route :=
      { name := "SOL-USDC"
        tokenMint := "So11111111111111111111111111111111111111112"
        usdcMint := "EPjFWdd5AufqSSqeM2qN1xzybapC8G4wEGGkZwyTDt1v" }
    usdcAmt := 1 / 2
    quoteOutRaw := 60000000
    swapOk := true
    sig := "sig"
    now := 5 }

lemma executeBuy_suspicious_general (s : DripState) (io : BuyInput)
    (hswap : io.swapOk = true)
    (hname : includesSOL io.route.name = true)
    (hui : toUiAmount io.quoteOutRaw (getDecimals io.route.tokenMint) > 5 / 100)
    (husd : io.usdcAmt < 1) :
    executeBuy s io =
      (updateStateAfterBuy s io.route io.sig io.now io.quoteOutRaw,
        Except.error DripErr.suspiciousAmount) := by
  unfold executeBuy
  rw [if_pos hswap]
  dsimp only
  rw [if_pos ⟨by simp [hname], hui, husd⟩]

lemma executeBuy_suspicious (s : DripState) :
    executeBuy s buySuspiciousInput =
      (updateStateAfterBuy s buySuspiciousInput.route "sig" 5 60000000,
        Except.error DripErr.suspiciousAmount) :=
  executeBuy_suspicious_general s buySuspiciousInput rfl (by decide)
    (by norm_num [toUiAmount, getDecimals, KNOWN_DECIMALS, buySuspiciousInput])
    (by norm_num [buySuspiciousInput])

/-- **C8** (evaluation at the failing input): a buy attempt that trips
the suspicious-amount sanity guard raises the safety error *after*
committing the state, and the surrounding `retryLeg` — which catches
every error indiscriminately — re-attempts it: with `maxBuyRetries =
3` the safety-violating buy is executed three times (the persisted
`completedTrades` counter advances by 3, i.e. three swaps were
performed) before the run finally aborts via retry exhaustion, not
immediately. -/
theorem claim_C8_safety_violation_retried :
    (executeBuy (freshState 0 "id") buySuspiciousInput).2 =
      Except.error DripErr.suspiciousAmount ∧
    (retryLeg 3 (fun _ st => executeBuy st buySuspiciousInput)
      (freshState 0 "id")).2.2 = 3 ∧
    (retryLeg 3 (fun _ st => executeBuy st buySuspiciousInput)
      (freshState 0 "id")).2.1 =
      RetryOutcome.exhausted (some DripErr.suspiciousAmount) ∧
    (retryLeg 3 (fun _ st => executeBuy st buySuspiciousInput)
      (freshState 0 "id")).1.completedTrades = 3 := by
  have h3 : retryLeg 3 (fun _ st => executeBuy st buySuspiciousInput)
      (freshState 0 "id") =
      (updateStateAfterBuy (updateStateAfterBuy (updateStateAfterBuy
          (freshState 0 "id") buySuspiciousInput.route "sig" 5 60000000)
          buySuspiciousInput.route "sig" 5 60000000)
          buySuspiciousInput.route "sig" 5 60000000,
        RetryOutcome.exhausted (some DripErr.suspiciousAmount), 3) := by
    unfold retryLeg
    simp only [retryLegAux, executeBuy_suspicious]
  refine ⟨by rw [executeBuy_suspicious], by rw [h3], by rw [h3], ?_⟩
  rw [h3]
  simp [updateStateAfterBuy, freshState]

/-! ## Run finalization and exit status (claim C9) -/

/-- A step oracle whose every buy attempt fails at the network level. -/
def stepFailInput : StepInput :=
  { buyInputs := fun _ =>
      { route := { name := "JUP-USDC", tokenMint := "MJ", usdcMint := "MU" }
        usdcAmt := 1
        quoteOutRaw := 10
        swapOk := false
        sig := "s"
        now := 0 }
    sellInputs := fun _ => { walletBal := 0, swapOk := false } }

/-- Configuration for the exit-status counterexample. -/
def cfgC9 : DripConfig :=
  { cfgC4 with totalTrades := 2, maxBuyRetries := 2 }

/-- **C9 counterexample**: a run whose first buy leg exhausts its
retries (a fatal exhaustion-of-retries abort) still produces exit
status 0 — `run()`'s `catch` block only logs the error and does not
rethrow, so nothing escapes to `main`'s `process.exit(1)` path.  The
claim's assertion that the failure propagates a non-zero exit status
is false; only the finalization-summary half holds. -/
theorem claim_C9_counterexample :
    (runBody cfgC9 none 0 0 0 "f" "g" (fun _ => ⟨0, false⟩)
      (fun _ => stepFailInput) 4).2.2 =
      Except.error (RunError.exhausted (some DripErr.swapFailed)) ∧
    (runMulti cfgC9 none 0 0 0 "f" "g" (fun _ => ⟨0, false⟩)
      (fun _ => stepFailInput) 4).summaryRan = true ∧
    mainExitCode (runMulti cfgC9 none 0 0 0 "f" "g" (fun _ => ⟨0, false⟩)
      (fun _ => stepFailInput) 4).escaped = 0 := by
  decide

/-- **C9 amended**: the finalization summary step runs after every
outcome (normal completion and fatal exhaustion alike), but the error
of a fatally aborted run is swallowed by `run()`'s `catch`, so the
process exit status is 0 in both cases; a non-zero exit can only come
from failures outside `run()` (config/keypair/startup errors). -/
theorem claim_C9_amended_exit_behavior (cfg : DripConfig)
    (file : Option DripState) (n1 n2 n3 : Nat) (f1 f2 : String)
    (recInput : Nat → SellInput) (io : Nat → StepInput) (fuel : Nat) :
    (runMulti cfg file n1 n2 n3 f1 f2 recInput io fuel).summaryRan = true ∧
    mainExitCode (runMulti cfg file n1 n2 n3 f1 f2 recInput io fuel).escaped = 0 := by
  unfold runMulti mainExitCode
  constructor
  · rfl
  · cases h : (runBody cfg file n1 n2 n3 f1 f2 recInput io fuel).2.2 <;> simp [h]

/-! ## Recovery (claim C2) -/

lemma executeBuy_ok_shape (s : DripState) (io : BuyInput) (s' : DripState)
    (ev : LegEvent) (h : executeBuy s io = (s', Except.ok ev)) :
    isRecoverySell ev = false := by
  unfold executeBuy at h
  dsimp only at h
  split_ifs at h with h1 h2
  · have h3 := congrArg Prod.snd h
    simp at h3
  · have h3 := congrArg Prod.snd h
    simp at h3
    rw [← h3]
    rfl
  · have h3 := congrArg Prod.snd h
    simp at h3

lemma executeSell_ok_shape (dry isRec : Bool) (s : DripState) (io : SellInput)
    (s' : DripState) (ev : LegEvent)
    (h : executeSell dry isRec s io = (s', Except.ok ev)) :
    isRecoverySell ev = isRec := by
  unfold executeSell at h
  rcases hrn : s.currentRouteName with _ | rn <;> rw [hrn] at h
  · have h3 := congrArg Prod.snd h
    simp at h3
  rcases hmint : s.currentRouteTokenMint with _ | mint <;> rw [hmint] at h
  · have h3 := congrArg Prod.snd h
    simp at h3
  rcases hres : resolveSellAmount dry s.lastBuyAmount io.walletBal with e | amt <;>
    rw [hres] at h
  · have h3 := congrArg Prod.snd h
    simp at h3
  split_ifs at h with hsw
  · have h3 := congrArg Prod.snd h
    simp only [] at h3
    rw [Except.ok.injEq] at h3
    rw [← h3]
    cases isRec <;> rfl
  · have h3 := congrArg Prod.snd h
    simp at h3

lemma retryLegAux_success_shape (P : LegEvent → Prop)
    (action : Nat → DripState → DripState × Except DripErr LegEvent)
    (hP : ∀ a st st' ev, action a st = (st', Except.ok ev) → P ev) :
    ∀ (n i : Nat) (le : Option DripErr) (s : DripState) (ev : LegEvent),
      (retryLegAux action n i le s).2.1 = RetryOutcome.success ev → P ev := by
  intro n
  induction n with
  | zero =>
      intro i le s ev h
      simp [retryLegAux] at h
  | succ m ih =>
      intro i le s ev h
      simp only [retryLegAux] at h
      rcases hact : action i s with ⟨s', res⟩
      rw [hact] at h
      cases res with
      | ok ev' =>
          simp only [] at h
          rw [RetryOutcome.success.injEq] at h
          rw [← h]
          exact hP i s s' ev' hact
      | error e =>
          simp only [] at h
          exact ih (i + 1) (some e) s' ev h

lemma mainLoop_no_recoverySell (cfg : DripConfig) (io : Nat → StepInput) :
    ∀ (fuel i : Nat) (s : DripState) (ev : LegEvent),
      ev ∈ (mainLoop cfg io fuel i s).1 → isRecoverySell ev = false := by
  intro fuel
  induction fuel with
  | zero =>
      intro i s ev h
      simp [mainLoop] at h
  | succ m ih =>
      intro i s ev h
      simp only [mainLoop] at h
      by_cases h1 : s.completedTrades < cfg.totalTrades
      · rw [if_pos h1] at h
        by_cases h2 : s.cycleState = CycleState.INIT ∨ s.cycleState = CycleState.SOLD
        · rw [if_pos h2] at h
          rcases hr : retryLeg cfg.maxBuyRetries
              (fun a st => executeBuy st ((io i).buyInputs a))
              (if s.cycleState = CycleState.SOLD then
                { s with cycleState := CycleState.INIT } else s) with ⟨s', ro, k⟩
          rw [hr] at h
          cases ro with
          | success ev' =>
              simp only [] at h
              rcases List.mem_cons.mp h with hev | hev
              · subst hev
                exact retryLegAux_success_shape (fun e => isRecoverySell e = false)
                  (fun a st => executeBuy st ((io i).buyInputs a))
                  (fun a st st' e hac =>
                    executeBuy_ok_shape st ((io i).buyInputs a) st' e hac)
                  cfg.maxBuyRetries 0 none
                  (if s.cycleState = CycleState.SOLD then
                    { s with cycleState := CycleState.INIT } else s)
                  ev (congrArg (fun p => p.2.1) hr)
              · exact ih (i + 1) s' ev hev
          | exhausted last =>
              simp at h
        · rw [if_neg h2] at h
          by_cases h3 : s.cycleState = CycleState.BOUGHT
          · rw [if_pos h3] at h
            rcases hr : retryLeg cfg.maxSellRetries
                (fun a st => executeSell cfg.dryRun false st ((io i).sellInputs a))
                s with ⟨s', ro, k⟩
            rw [hr] at h
            cases ro with
            | success ev' =>
                simp only [] at h
                rcases List.mem_cons.mp h with hev | hev
                · subst hev
                  exact retryLegAux_success_shape (fun e => isRecoverySell e = false)
                    (fun a st => executeSell cfg.dryRun false st ((io i).sellInputs a))
                    (fun a st st' e hac =>
                      executeSell_ok_shape cfg.dryRun false st ((io i).sellInputs a) st' e hac)
                    cfg.maxSellRetries 0 none s ev (congrArg (fun p => p.2.1) hr)
                · exact ih (i + 1) s' ev hev
            | exhausted last =>
                simp at h
          · rw [if_neg h3] at h
            exact ih (i + 1) s ev h
      · rw [if_neg h1] at h
        simp at h

lemma recoveryPhase_first_success (cfg : DripConfig) (s : DripState)
    (recInput : Nat → SellInput) (nL nR : Nat) (fid2 : String)
    (rn mint : String) (A : Nat)
    (hver : s.version = 2)
    (hrn : s.currentRouteName = some rn)
    (hmint : s.currentRouteTokenMint = some mint)
    (hres : resolveSellAmount cfg.dryRun s.lastBuyAmount (recInput 0).walletBal =
      Except.ok A)
    (hswap : (recInput 0).swapOk = true)
    (hretr : 0 < cfg.maxSellRetries) :
    recoveryPhase cfg s recInput nL nR fid2 =
      Except.ok ({ freshState nL fid2 with startTime := nR },
        LegEvent.sellLeg true A mint) := by
  have hact : executeSell cfg.dryRun true s (recInput 0) =
      (updateStateAfterSell s, Except.ok (LegEvent.sellLeg true A mint)) := by
    rw [executeSell_resolve cfg.dryRun true s (recInput 0) rn mint hrn hmint hswap,
      hres]
  unfold recoveryPhase
  rw [retryLeg_first_success _ s _ _ hact cfg.maxSellRetries hretr]
  have hload : loadState (some (updateStateAfterSell s)) nL fid2 =
      freshState nL fid2 := by
    simp only [loadState]
    rw [if_pos (by simpa [updateStateAfterSell] using hver),
      if_neg (by simp [updateStateAfterSell])]
  simp only [hload]
  rfl

lemma runBody_recovery_first_success (cfg : DripConfig) (fs : DripState)
    (rn mint : String) (A : Nat) (recInput : Nat → SellInput) (io : Nat → StepInput)
    (fuel nS nL nR : Nat) (fid fid2 : String)
    (hver : fs.version = 2) (hcs : fs.cycleState = CycleState.BOUGHT)
    (hrn : fs.currentRouteName = some rn)
    (hmint : fs.currentRouteTokenMint = some mint)
    (hres : resolveSellAmount cfg.dryRun fs.lastBuyAmount (recInput 0).walletBal =
      Except.ok A)
    (hswap : (recInput 0).swapOk = true)
    (hretr : 0 < cfg.maxSellRetries) :
    runBody cfg (some fs) nS nL nR fid fid2 recInput io fuel =
      (LegEvent.sellLeg true A mint ::
          (mainLoop cfg io fuel 0 { freshState nL fid2 with startTime := nR }).1,
        (mainLoop cfg io fuel 0 { freshState nL fid2 with startTime := nR }).2.1,
        (mainLoop cfg io fuel 0 { freshState nL fid2 with startTime := nR }).2.2) := by
  have hload : loadState (some fs) nS fid =
      { fs with completedTrades := 0, startTime := nS } := by
    simp only [loadState]
    rw [if_pos hver, if_pos hcs]
  have hrec := recoveryPhase_first_success cfg
    { fs with completedTrades := 0, startTime := nS } recInput nL nR fid2 rn mint A
    hver hrn hmint hres hswap hretr
  unfold runBody
  rw [hload, if_pos hcs, hrec]

/-- **C2 counterexample**: a startup from a version-2 `BOUGHT` file
with `lastBuyAmountRaw = 1000` whose wallet balance reads 999 (a 0.1%
shortfall, within the 2% tolerance) performs its single recovery sell
of 999 units — not of `lastBuyAmountRaw = 1000` units as the claim
states. -/
theorem claim_C2_recovery_counterexample :
    sBoughtC1.lastBuyAmount = some 1000 ∧
    (runBody { cfgC4 with totalTrades := 0 } (some sBoughtC1) 100 200 300 "f" "g"
        (fun _ => ⟨999, true⟩) (fun _ => stepFailInput) 0).1 =
      [LegEvent.sellLeg true 999 "X"] ∧
    (999 : Nat) ≠ 1000 := by
  refine ⟨rfl, ?_, by decide⟩
  have hres : resolveSellAmount ({ cfgC4 with totalTrades := 0 } : DripConfig).dryRun
      sBoughtC1.lastBuyAmount ((fun _ : Nat => (⟨999, true⟩ : SellInput)) 0).walletBal =
      Except.ok 999 := by
    show resolveSellAmount false (some 1000) 999 = Except.ok 999
    exact resolveSellAmount_small_shortfall 1000 999 (by omega) (by norm_num)
  rw [runBody_recovery_first_success { cfgC4 with totalTrades := 0 } sBoughtC1
    "SOL-USDC" "X" 999 (fun _ => ⟨999, true⟩) (fun _ => stepFailInput) 0 100 200 300
    "f" "g" rfl rfl rfl rfl hres rfl (by decide)]
  rfl

/-- **C2 (amended)**: on startup from a version-2 persisted state in
`BOUGHT` state, the engine performs exactly one recovery sell — of
`lastBuyAmountRaw` units whenever the wallet balance covers that
amount (under a sub-2% shortfall it sells the actual balance instead)
— before any leg of the new run, no later leg is a recovery sell, and
the state the main loop starts from has `completedTrades` reset to 0
and `startTime` reset to the post-recovery clock reading. -/
theorem claim_C2_recovery_amended (cfg : DripConfig) (fs : DripState)
    (rn mint : String) (t : Nat) (recInput : Nat → SellInput) (io : Nat → StepInput)
    (fuel nS nL nR : Nat) (fid fid2 : String)
    (hver : fs.version = 2) (hcs : fs.cycleState = CycleState.BOUGHT)
    (hrn : fs.currentRouteName = some rn)
    (hmint : fs.currentRouteTokenMint = some mint)
    (hlast : fs.lastBuyAmount = some t) (ht : 0 < t)
    (hdry : cfg.dryRun = false) (hbal : t ≤ (recInput 0).walletBal)
    (hswap : (recInput 0).swapOk = true) (hretr : 0 < cfg.maxSellRetries) :
    (runBody cfg (some fs) nS nL nR fid fid2 recInput io fuel).1 =
      LegEvent.sellLeg true t mint ::
        (mainLoop cfg io fuel 0 { freshState nL fid2 with startTime := nR }).1 ∧
    List.countP (fun ev => isRecoverySell ev)
      (runBody cfg (some fs) nS nL nR fid fid2 recInput io fuel).1 = 1 ∧
    ({ freshState nL fid2 with startTime := nR } : DripState).completedTrades = 0 ∧
    ({ freshState nL fid2 with startTime := nR } : DripState).startTime = nR := by
  have hres : resolveSellAmount cfg.dryRun fs.lastBuyAmount
      (recInput 0).walletBal = Except.ok t := by
    rw [hdry, hlast]
    exact resolveSellAmount_ge t _ ht hbal
  have hrb := runBody_recovery_first_success cfg fs rn mint t recInput io fuel
    nS nL nR fid fid2 hver hcs hrn hmint hres hswap hretr
  have hev1 : (runBody cfg (some fs) nS nL nR fid fid2 recInput io fuel).1 =
      LegEvent.sellLeg true t mint ::
        (mainLoop cfg io fuel 0 { freshState nL fid2 with startTime := nR }).1 := by
    rw [hrb]
  refine ⟨hev1, ?_, rfl, rfl⟩
  rw [hev1, List.countP_cons]
  have h0 : List.countP (fun ev => isRecoverySell ev)
      (mainLoop cfg io fuel 0 { freshState nL fid2 with startTime := nR }).1 = 0 :=
    List.countP_eq_zero.mpr (fun ev hev => by
      simp [mainLoop_no_recoverySell cfg io fuel 0 _ ev hev])
  rw [h0]
  simp [isRecoverySell]

theorem claim_C2_recovery_amended_witness :
    (sBoughtC1.version = 2 ∧ sBoughtC1.cycleState = CycleState.BOUGHT ∧
      sBoughtC1.lastBuyAmount = some 1000 ∧ (0 : Nat) < 1000 ∧
      ({ cfgC4 with totalTrades := 0 } : DripConfig).dryRun = false ∧
      (1000 : Nat) ≤ 1000 ∧
      0 < ({ cfgC4 with totalTrades := 0 } : DripConfig).maxSellRetries) ∧
    (runBody { cfgC4 with totalTrades := 0 } (some sBoughtC1) 100 200 300 "f" "g"
        (fun _ => ⟨1000, true⟩) (fun _ => stepFailInput) 0).1 =
      LegEvent.sellLeg true 1000 "X" ::
        (mainLoop { cfgC4 with totalTrades := 0 } (fun _ => stepFailInput) 0 0
          { freshState 200 "g" with startTime := 300 }).1 :=
  ⟨⟨rfl, rfl, rfl, by decide, rfl, by decide, by decide⟩,
    (claim_C2_recovery_amended { cfgC4 with totalTrades := 0 } sBoughtC1
      "SOL-USDC" "X" 1000 (fun _ => ⟨1000, true⟩) (fun _ => stepFailInput) 0 100 200
      300 "f" "g" rfl rfl rfl rfl rfl (by decide) rfl (by decide) rfl
      (by decide)).1⟩

end Drip
